import Mathlib

/-!
Verification of the `reaktoro-jupyter` tutorial notebooks.

The repository consists of four Jupyter notebooks whose code cells are
straight-line Python scripts calling the external Reaktoro chemistry
library.  We deep-embed the code cells of each notebook, statement by
statement and in cell order, as lists of `PyStmt`, and settle the claims
as decidable properties of those lists (and of a small sequential
semantics defined over them).
-/

namespace Reaktoro

/-- Python expressions as they occur in the notebooks.  Calls use
fixed arities so that every function below is plain structural
recursion, evaluable by the kernel.  Constructors that the notebooks
never use (`lam`, `awaitE`) are included so that their absence is a
provable property rather than an artifact of the embedding. -/
inductive PyExpr where
  | num (m : ℤ) (e : ℕ)
  | str (s : String)
  | var (x : String)
  | binop (op : String) (a b : PyExpr)
  | attr (e : PyExpr) (f : String)
  | call0 (f : PyExpr)
  | call1 (f : PyExpr) (a : PyExpr)
  | call2 (f : PyExpr) (a b : PyExpr)
  | call3 (f : PyExpr) (a b c : PyExpr)
  | call4 (f : PyExpr) (a b c d : PyExpr)
  | subscript (e i : PyExpr)
  | pair (a b : PyExpr)
  | listLit1 (a : PyExpr)
  | lam (param : String) (body : PyExpr)
  | awaitE (e : PyExpr)
  deriving DecidableEq, Repr

/-- Python statements.  The notebooks only ever use the first five
constructors; the control-flow, definition, exception and concurrency
constructors are present so that claims about their absence are
statements about the embedded source, not vacuities of the syntax. -/
inductive PyStmt where
  | importAll (m : String)
  | importMod (m : String)
  | assign (x : String) (e : PyExpr)
  | destructure (xs : List String) (e : PyExpr)
  | exprStmt (e : PyExpr)
  | funcDef (name : String) (body : List PyStmt)
  | classDef (name : String) (body : List PyStmt)
  | forLoop (x : String) (iter : PyExpr) (body : List PyStmt)
  | whileLoop (c : PyExpr) (body : List PyStmt)
  | ifStmt (c : PyExpr) (thenB elseB : List PyStmt)
  | tryExcept (body handler : List PyStmt)
  | spawn (e : PyExpr)
  deriving Repr

open PyExpr PyStmt

/-- Method call with no argument: `obj.m()`. -/
def mc0 (obj m : String) : PyExpr := call0 (attr (var obj) m)

/-- Method call with one argument: `obj.m(a)`. -/
def mc1 (obj m : String) (a : PyExpr) : PyExpr := call1 (attr (var obj) m) a

/-- Method call with two arguments: `obj.m(a, b)`. -/
def mc2 (obj m : String) (a b : PyExpr) : PyExpr := call2 (attr (var obj) m) a b

/-- Method call with three arguments: `obj.m(a, b, c)`. -/
def mc3 (obj m : String) (a b c : PyExpr) : PyExpr := call3 (attr (var obj) m) a b c

/-- The shape of the ion lines of the Evian notebook:
`problem.add(ion, c * 1e-6 / system.species(sp).molarMass(), "mol")`, the
labelled concentration written as mantissa `m` times `10^-e`. -/
def ionAdd (ion : String) (m : ℤ) (e : ℕ) (sp : String) : PyStmt :=
  exprStmt (mc3 "problem" "add" (str ion)
    (binop "/" (binop "*" (num m e) (num 1 6))
      (call0 (attr (call1 (attr (var "system") "species") (str sp)) "molarMass")))
    (str "mol"))

/-- Code cells of `eq.sodium-chloride-solubility-in-water.ipynb`, in order. -/
def sodiumChloride : List PyStmt :=
  [ importAll "reaktoro"
  , assign "db" (call1 (var "Database") (str "supcrt98.xml"))
  , assign "editor" (call1 (var "ChemicalEditor") (var "db"))
  , exprStmt (mc1 "editor" "addAqueousPhaseWithElements" (str "H O Na Cl"))
  , exprStmt (mc1 "editor" "addMineralPhase" (str "Halite"))
  , assign "system" (call1 (var "ChemicalSystem") (var "editor"))
  , exprStmt (call2 (var "print") (str "system = ") (var "system"))
  , assign "problem" (call1 (var "EquilibriumProblem") (var "system"))
  , exprStmt (mc2 "problem" "setTemperature" (num 25 0) (str "celsius"))
  , exprStmt (mc2 "problem" "setPressure" (num 1 0) (str "bar"))
  , exprStmt (mc3 "problem" "add" (str "H2O") (num 1 0) (str "kg"))
  , exprStmt (mc3 "problem" "add" (str "NaCl") (num 1 0) (str "mg"))
  , assign "state" (call1 (var "equilibrate") (var "problem"))
  , exprStmt (call2 (var "print") (str "state = ") (var "state"))
  , exprStmt (mc3 "problem" "add" (str "NaCl") (num 1 0) (str "kg"))
  , assign "state" (call1 (var "equilibrate") (var "problem"))
  , exprStmt (call2 (var "print") (str "state = ") (var "state"))
  , exprStmt (call1 (var "print") (mc1 "state" "speciesAmount" (str "Halite")))
  ]

/-- The PHREEQC input script bound to `ex1` in the Evian notebook,
exactly as the raw triple-quoted Python literal. -/
def phreeqcScriptEx1 : String :=
  "(\nSOLUTION 1\n    temp      25\n    pH        7.2\n    pe        4\n    redox     pe\n    units     mg/kgw\n    density   1\n    C(4)      350\n    Ca        80\n    Cl        6.8\n    K         1\n    Mg        26\n    N(5)      3.7\n    Na        6.5\n    S(6)      12.6\n    Si        15\n    -water    1 # kg\nEQUILIBRIUM_PHASES 1\n    Dolomite 0 0\n    Calcite 0 0\n    Quartz 0 0\nend\n)"

/-- Code cells of `eq.evian-water-analysis.ipynb`, in order. -/
def evianWaterAnalysis : List PyStmt :=
  [ importAll "reaktoro"                                                    -- 0
  , importAll "math"                                                        -- 1
  , assign "db" (call1 (var "Database") (str "supcrt98.xml"))               -- 2
  , assign "editor" (call1 (var "ChemicalEditor") (var "db"))               -- 3
  , exprStmt (mc1 "editor" "addAqueousPhaseWithElements"
      (str "C Ca Cl H K Mg N Na O S Si"))                                   -- 4
  , exprStmt (mc1 "editor" "addMineralPhase" (str "Calcite"))               -- 5
  , exprStmt (mc1 "editor" "addMineralPhase" (str "Dolomite"))              -- 6
  , exprStmt (mc1 "editor" "addMineralPhase" (str "Quartz"))                -- 7
  , assign "system" (call1 (var "ChemicalSystem") (var "editor"))           -- 8
  , assign "reaction_equation_calcite"
      (call1 (var "ReactionEquation") (str "Calcite + H+ = Ca++ + HCO3-"))  -- 9
  , assign "reaction_equation_dolomite"
      (call1 (var "ReactionEquation")
        (str "Dolomite + 2*H+ = Ca++ + Mg++ + 2*HCO3-"))                    -- 10
  , assign "reaction_equation_quartz"
      (call1 (var "ReactionEquation") (str "Quartz + H2O(l) = H+ + HSiO3-")) -- 11
  , assign "reaction_calcite"
      (call2 (var "Reaction") (var "reaction_equation_calcite") (var "system")) -- 12
  , assign "reaction_dolomite"
      (call2 (var "Reaction") (var "reaction_equation_dolomite") (var "system")) -- 13
  , assign "reaction_quartz"
      (call2 (var "Reaction") (var "reaction_equation_quartz") (var "system")) -- 14
  , assign "problem" (call1 (var "EquilibriumInverseProblem") (var "system")) -- 15
  , exprStmt (mc2 "problem" "setTemperature" (num 25 0) (str "celsius"))      -- 16
  , exprStmt (mc2 "problem" "setPressure" (num 101325 5) (str "bar")) -- 17
  , exprStmt (mc3 "problem" "add" (str "H2O") (num 1 0) (str "kg"))           -- 18
  , ionAdd "Ca++" 80 0 "Ca++"                                                 -- 19
  , ionAdd "Cl-" 68 1 "Cl-"                                                -- 20
  , ionAdd "HCO3-" 350 0 "HCO3-"                                              -- 21
  , ionAdd "Mg++" 26 0 "Mg++"                                                 -- 22
  , ionAdd "NO3-" 37 1 "NO3-"                                              -- 23
  , ionAdd "K+" 1 0 "K+"                                                      -- 24
  , ionAdd "Na+" 65 1 "Na+"                                                -- 25
  , ionAdd "SO4--" 126 1 "S2O4--"                                          -- 26
  , exprStmt (mc3 "problem" "add" (str "Si")
      (binop "/" (binop "*" (num 15 0) (num 1 3)) (num 280855 4))
      (str "mol"))                                                          -- 27
  , exprStmt (mc3 "problem" "add" (str "Calcite") (num 0 0) (str "mol"))      -- 28
  , exprStmt (mc3 "problem" "add" (str "Dolomite") (num 0 0) (str "mol"))     -- 29
  , exprStmt (mc3 "problem" "add" (str "Quartz") (num 0 0) (str "mol"))       -- 30
  , exprStmt (mc3 "problem" "pH" (num 72 1) (str "HCl") (str "NaOH"))    -- 31
  , assign "state" (call1 (var "equilibrate") (var "problem"))              -- 32
  , exprStmt (call1 (var "print") (var "state"))                            -- 33
  , assign "props" (mc0 "state" "properties")                               -- 34
  , assign "lnK_calcite" (mc1 "reaction_calcite" "lnEquilibriumConstant" (var "props")) -- 35
  , assign "lnQ_calcite" (mc1 "reaction_calcite" "lnReactionQuotient" (var "props"))    -- 36
  , assign "SR_calcite"
      (binop "-" (attr (var "lnQ_calcite") "val") (attr (var "lnK_calcite") "val"))     -- 37
  , assign "SI_calcite" (call1 (var "exp") (var "SR_calcite"))              -- 38
  , assign "lnK_dolomite" (mc1 "reaction_dolomite" "lnEquilibriumConstant" (var "props")) -- 39
  , assign "lnQ_dolomite" (mc1 "reaction_dolomite" "lnReactionQuotient" (var "props"))    -- 40
  , assign "SR_dolomite"
      (binop "-" (attr (var "lnQ_dolomite") "val") (attr (var "lnK_dolomite") "val"))     -- 41
  , assign "SI_dolomite" (call1 (var "exp") (var "SR_dolomite"))            -- 42
  , assign "lnK_quartz" (mc1 "reaction_quartz" "lnEquilibriumConstant" (var "props"))   -- 43
  , assign "lnQ_quartz" (mc1 "reaction_quartz" "lnReactionQuotient" (var "props"))      -- 44
  , assign "SR_quartz"
      (binop "-" (attr (var "lnQ_quartz") "val") (attr (var "lnK_quartz") "val"))       -- 45
  , assign "SI_quartz" (call1 (var "exp") (var "SR_quartz"))                -- 46
  , exprStmt (call2 (var "print") (str "Saturation Index (Calcite) = ") (var "SI_calcite"))  -- 47
  , exprStmt (call2 (var "print") (str "Saturation Index (Dolomite) = ") (var "SI_dolomite")) -- 48
  , exprStmt (call2 (var "print") (str "Saturation Index (Quartz) = ") (var "SI_quartz"))     -- 49
  , assign "phase_stability_indices" (mc0 "state" "phaseStabilityIndices")  -- 50
  , assign "calcite_phase_index" (mc1 "system" "indexPhase" (str "Calcite")) -- 51
  , assign "dolomite_phase_index" (mc1 "system" "indexPhase" (str "Dolomite")) -- 52
  , assign "quartz_phase_index" (mc1 "system" "indexPhase" (str "Quartz"))  -- 53
  , exprStmt (call2 (var "print") (str "Stability Index (Calcite)  = ")
      (subscript (var "phase_stability_indices") (var "calcite_phase_index"))) -- 54
  , exprStmt (call2 (var "print") (str "Stability Index (Dolomite) = ")
      (subscript (var "phase_stability_indices") (var "dolomite_phase_index"))) -- 55
  , exprStmt (call2 (var "print") (str "Stability Index (Quartz)   = ")
      (subscript (var "phase_stability_indices") (var "quartz_phase_index"))) -- 56
  , assign "ex1" (str phreeqcScriptEx1)                                     -- 57
  , assign "phreeqc" (call1 (var "Phreeqc") (str "../databases/phreeqc/phreeqc.dat")) -- 58
  , exprStmt (mc1 "phreeqc" "execute" (var "ex1"))                          -- 59
  , assign "system" (call1 (var "ChemicalSystem") (var "phreeqc"))          -- 60
  , assign "state" (mc1 "phreeqc" "state" (var "system"))                   -- 61
  , exprStmt (call1 (var "print") (var "state"))                            -- 62
  ]

/-- Code cells of `eq.equilibriumpath.ipynb`, in order. -/
def equilibriumPath : List PyStmt :=
  [ importAll "reaktoro"                                                    -- 0
  , assign "editor" (call0 (var "ChemicalEditor"))                          -- 1
  , exprStmt (mc1 "editor" "addAqueousPhaseWithElements" (str "H O Ca C Cl")) -- 2
  , exprStmt (mc1 "editor" "addMineralPhase" (str "Calcite"))               -- 3
  , assign "system" (call1 (var "ChemicalSystem") (var "editor"))           -- 4
  , assign "initial_problem" (call1 (var "EquilibriumProblem") (var "system")) -- 5
  , exprStmt (mc2 "initial_problem" "setTemperature" (num 30 0) (str "celsius")) -- 6
  , exprStmt (mc2 "initial_problem" "setPressure" (num 1 0) (str "bar"))      -- 7
  , exprStmt (mc3 "initial_problem" "add" (str "H2O") (num 1 0) (str "kg"))   -- 8
  , exprStmt (mc3 "initial_problem" "add" (str "CaCO3") (num 1 0) (str "g"))  -- 9
  , assign "final_problem" (call1 (var "EquilibriumProblem") (var "system")) -- 10
  , exprStmt (mc2 "final_problem" "setTemperature" (num 30 0) (str "celsius")) -- 11
  , exprStmt (mc2 "final_problem" "setPressure" (num 1 0) (str "bar"))        -- 12
  , exprStmt (mc3 "final_problem" "add" (str "H2O") (num 1 0) (str "kg"))     -- 13
  , exprStmt (mc3 "final_problem" "add" (str "CaCO3") (num 1 0) (str "g"))    -- 14
  , exprStmt (mc3 "final_problem" "add" (str "HCl") (num 1 0) (str "mmol"))   -- 15
  , assign "initial_state" (call1 (var "equilibrate") (var "initial_problem")) -- 16
  , assign "final_state" (call1 (var "equilibrate") (var "final_problem"))  -- 17
  , assign "path" (call1 (var "EquilibriumPath") (var "system"))            -- 18
  , assign "output" (mc0 "path" "output")                                   -- 19
  , exprStmt (mc1 "output" "filename" (str "result.txt"))                   -- 20
  , exprStmt (mc2 "output" "add" (str "elementAmount(Cl units=mmol)") (str "Cl [mmol]")) -- 21
  , exprStmt (mc2 "output" "add" (str "speciesMolality(CO2(aq) units=mmolal)")
      (str "CO2(aq) [mmol]"))                                               -- 22
  , exprStmt (mc2 "output" "add" (str "speciesMolality(CO3-- units=mmolal)")
      (str "CO3-- [mmol]"))                                                 -- 23
  , exprStmt (mc2 "output" "add" (str "elementMolality(Ca units=mmolal)")
      (str "Ca [mmolal]"))                                                  -- 24
  , exprStmt (mc1 "output" "add" (str "pH"))                                -- 25
  , exprStmt (mc1 "output" "add" (str "speciesMass(Calcite units=g)"))      -- 26
  , assign "path" (mc2 "path" "solve" (var "initial_state") (var "final_state")) -- 27
  , importMod "matplotlib.pyplot"                                           -- 28
  , importMod "numpy"                                                       -- 29
  , assign "filearray" (mc2 "np" "loadtxt" (str "result.txt") (num 1 0))      -- 30
  , assign "data" (attr (var "filearray") "T")                              -- 31
  , destructure ["cl_indx", "co2aq_indx", "co3_indx", "ca_indx", "ph_indx", "calcite_indx"]
      (mc1 "np" "arange" (num 6 0))                                           -- 32
  , exprStmt (mc0 "plt" "figure")                                           -- 33
  , exprStmt (mc3 "plt" "plot" (subscript (var "data") (var "ph_indx"))
      (subscript (var "data") (var "cl_indx")) (str "Cl"))                  -- 34
  , exprStmt (mc1 "plt" "xlabel" (str "pH"))                                -- 35
  , exprStmt (mc1 "plt" "ylabel" (str "Amount of Cl [mmol]"))               -- 36
  , exprStmt (mc0 "plt" "tight_layout")                                     -- 37
  , exprStmt (mc0 "plt" "figure")                                           -- 38
  , exprStmt (mc3 "plt" "plot" (subscript (var "data") (var "cl_indx"))
      (subscript (var "data") (var "ca_indx")) (str "Ca"))                  -- 39
  , exprStmt (mc1 "plt" "xlabel" (str "Amount of Cl [mmol]"))               -- 40
  , exprStmt (mc1 "plt" "ylabel" (str "Concentration of Ca [mmolal]"))      -- 41
  , exprStmt (mc0 "plt" "tight_layout")                                     -- 42
  , exprStmt (mc0 "plt" "figure")                                           -- 43
  , exprStmt (mc3 "plt" "plot" (subscript (var "data") (var "ph_indx"))
      (subscript (var "data") (var "co2aq_indx")) (str "CO2(aq)"))          -- 44
  , exprStmt (mc3 "plt" "plot" (subscript (var "data") (var "ph_indx"))
      (subscript (var "data") (var "co3_indx")) (str "CO3--"))              -- 45
  , exprStmt (mc1 "plt" "xlabel" (str "pH"))                                -- 46
  , exprStmt (mc1 "plt" "ylabel" (str "Concentration [mmolal]"))            -- 47
  , exprStmt (mc1 "plt" "legend" (str "center right"))                      -- 48
  , exprStmt (mc0 "plt" "tight_layout")                                     -- 49
  , exprStmt (mc0 "plt" "figure")                                           -- 50
  , exprStmt (mc3 "plt" "plot" (subscript (var "data") (var "cl_indx"))
      (subscript (var "data") (var "calcite_indx")) (str "Calcite"))        -- 51
  , exprStmt (mc1 "plt" "xlabel" (str "HCl [mmol]"))                        -- 52
  , exprStmt (mc1 "plt" "ylabel" (str "Mass [g]"))                          -- 53
  , exprStmt (mc1 "plt" "legend" (str "center right"))                      -- 54
  , exprStmt (mc0 "plt" "tight_layout")                                     -- 55
  ]

/-- Code cells of `kin.calcite-hcl.ipynb`, in order. -/
def calciteHcl : List PyStmt :=
  [ importAll "reaktoro"                                                    -- 0
  , assign "editor" (call0 (var "ChemicalEditor"))                          -- 1
  , exprStmt (mc1 "editor" "addAqueousPhaseWithElementsOf" (str "H2O HCl CaCO3")) -- 2
  , exprStmt (mc1 "editor" "addMineralPhase" (str "Calcite"))               -- 3
  , exprStmt (call2 (attr (call1 (attr (call1 (attr (call1 (attr
      (call1 (attr (var "editor") "addMineralReaction") (str "Calcite"))
      "setEquation") (str "Calcite = Ca++ + CO3--"))
      "addMechanism") (str "logk = -5.81 mol/(m2*s); Ea = 23.5 kJ/mol"))
      "addMechanism") (str "logk = -0.30 mol/(m2*s); Ea = 14.4 kJ/mol; a[H+] = 1.0"))
      "setSpecificSurfaceArea") (num 10 0) (str "cm2/g"))                     -- 4
  , assign "system" (call1 (var "ChemicalSystem") (var "editor"))           -- 5
  , assign "reactions" (call1 (var "ReactionSystem") (var "editor"))        -- 6
  , assign "partition" (call1 (var "Partition") (var "system"))             -- 7
  , exprStmt (mc1 "partition" "setKineticSpecies" (listLit1 (str "Calcite"))) -- 8
  , assign "problem" (call1 (var "EquilibriumProblem") (var "system"))      -- 9
  , exprStmt (mc1 "problem" "setPartition" (var "partition"))               -- 10
  , exprStmt (mc2 "problem" "setTemperature" (num 30 0) (str "celsius"))      -- 11
  , exprStmt (mc2 "problem" "setPressure" (num 1 0) (str "bar"))              -- 12
  , exprStmt (mc3 "problem" "add" (str "H2O") (num 1 0) (str "kg"))           -- 13
  , exprStmt (mc3 "problem" "add" (str "HCl") (num 1 0) (str "mmol"))         -- 14
  , assign "state0" (call1 (var "equilibrate") (var "problem"))             -- 15
  , exprStmt (mc3 "state0" "setSpeciesMass" (str "Calcite") (num 100 0) (str "g")) -- 16
  , assign "path" (call1 (var "KineticPath") (var "reactions"))             -- 17
  , exprStmt (mc1 "path" "setPartition" (var "partition"))                  -- 18
  , assign "output" (mc0 "path" "output")                                   -- 19
  , exprStmt (mc1 "output" "filename" (str "results.txt"))                  -- 20
  , exprStmt (mc1 "output" "add" (str "time(units=minute)"))                -- 21
  , exprStmt (mc2 "output" "add" (str "elementMolality(Ca units=mmolal)")
      (str "Ca [mmolal]"))                                                  -- 22
  , exprStmt (mc2 "output" "add" (str "phaseMass(Calcite units=g)")
      (str "Calcite [units=g]"))                                            -- 23
  , exprStmt (mc2 "output" "add" (str "speciesMolality(Ca++ units=mmolal)")
      (str "Ca++ [mmol]"))                                                  -- 24
  , exprStmt (mc2 "output" "add" (str "speciesMolality(HCO3- units=mmolal)")
      (str "HCO3- [mmol]"))                                                 -- 25
  , exprStmt (mc1 "output" "add" (str "pH"))                                -- 26
  , destructure ["t0", "t1"] (pair (num 0 0) (num 5 0))                         -- 27
  , exprStmt (call4 (attr (var "path") "solve")
      (var "state0") (var "t0") (var "t1") (str "minute"))                  -- 28
  , importMod "matplotlib.pyplot"                                           -- 29
  , assign "filearray" (mc2 "numpy" "loadtxt" (str "results.txt") (num 1 0))  -- 30
  , assign "data" (attr (var "filearray") "T")                              -- 31
  , destructure ["time_indx", "ca_elem_indx", "calcite_indx", "ca_species_indx",
      "hco3_indx", "ph_indx"] (mc2 "numpy" "arange" (num 0 0) (num 6 0))        -- 32
  , assign "time" (subscript (var "data") (var "time_indx"))                -- 33
  , exprStmt (mc0 "plt" "figure")                                           -- 34
  , exprStmt (mc3 "plt" "plot" (var "time")
      (subscript (var "data") (var "ca_elem_indx")) (str "Ca"))             -- 35
  , exprStmt (mc1 "plt" "xlabel" (str "time"))                              -- 36
  , exprStmt (mc1 "plt" "ylabel" (str "Amount of Ca [mmolal]"))             -- 37
  , exprStmt (mc1 "plt" "legend" (str "center right"))                      -- 38
  , exprStmt (mc0 "plt" "tight_layout")                                     -- 39
  , exprStmt (mc0 "plt" "figure")                                           -- 40
  , exprStmt (mc3 "plt" "plot" (var "time")
      (subscript (var "data") (var "calcite_indx")) (str "Calcite"))        -- 41
  , exprStmt (mc1 "plt" "xlabel" (str "time"))                              -- 42
  , exprStmt (mc1 "plt" "ylabel" (str "Mass of Calcite [g]"))               -- 43
  , exprStmt (mc1 "plt" "legend" (str "center right"))                      -- 44
  , exprStmt (mc0 "plt" "tight_layout")                                     -- 45
  , exprStmt (mc0 "plt" "figure")                                           -- 46
  , exprStmt (mc3 "plt" "plot" (var "time")
      (subscript (var "data") (var "ph_indx")) (str "pH"))                  -- 47
  , exprStmt (mc1 "plt" "xlabel" (str "time"))                              -- 48
  , exprStmt (mc1 "plt" "ylabel" (str "ph"))                                -- 49
  , exprStmt (mc1 "plt" "legend" (str "center right"))                      -- 50
  , exprStmt (mc0 "plt" "tight_layout")                                     -- 51
  , exprStmt (mc0 "plt" "figure")                                           -- 52
  , exprStmt (mc3 "plt" "plot" (var "time")
      (subscript (var "data") (var "ca_species_indx")) (str "Ca++"))        -- 53
  , exprStmt (mc3 "plt" "plot" (var "time")
      (subscript (var "data") (var "hco3_indx")) (str "HCO3-"))             -- 54
  , exprStmt (mc1 "plt" "xlabel" (str "time"))                              -- 55
  , exprStmt (mc1 "plt" "ylabel" (str "Molality [mmolal]"))                 -- 56
  , exprStmt (mc1 "plt" "legend" (str "center right"))                      -- 57
  , exprStmt (mc0 "plt" "tight_layout")                                     -- 58
  ]

/-- All four notebooks of the repository. -/
def notebooks : List (List PyStmt) :=
  [sodiumChloride, evianWaterAnalysis, equilibriumPath, calciteHcl]

/-- Statement of a notebook at a position (a harmless dummy out of range). -/
def stmtAt (nb : List PyStmt) (i : ℕ) : PyStmt := nb.getD i (exprStmt (num 0 0))

/-- Straight-line statements: imports, (destructuring) assignments and bare
expression statements.  Control flow, definitions, exception handlers and
thread spawns are not straight-line. -/
def straightLine : PyStmt → Bool
  | importAll _ => true
  | importMod _ => true
  | assign _ _ => true
  | destructure _ _ => true
  | exprStmt _ => true
  | _ => false

/-- Does the statement define a function or a class? -/
def definesFuncOrClass : PyStmt → Bool
  | funcDef _ _ => true
  | classDef _ _ => true
  | _ => false

/-- Is the statement a try/except exception handler? -/
def isTryExcept : PyStmt → Bool
  | tryExcept _ _ => true
  | _ => false

/-- Is the statement a thread/process spawn? -/
def isSpawn : PyStmt → Bool
  | spawn _ => true
  | _ => false

/-- The expression carried by a straight-line statement. -/
def stmtExpr : PyStmt → Option PyExpr
  | assign _ e => some e
  | destructure _ e => some e
  | exprStmt e => some e
  | _ => none

/-- Variables bound by a statement. -/
def stmtAssignedVars : PyStmt → List String
  | assign x _ => [x]
  | destructure xs _ => xs
  | _ => []

/-- Target of a plain assignment. -/
def assignTarget : PyStmt → Option String
  | assign x _ => some x
  | _ => none

/-- Does an expression contain written-out arithmetic: a binary arithmetic
operator, or a call of the `math` function `exp`? -/
def hasArith : PyExpr → Bool
  | num _ _ => false
  | str _ => false
  | var _ => false
  | binop _ _ _ => true
  | attr e _ => hasArith e
  | call0 f => hasArith f
  | call1 f a => (f = var "exp") || hasArith f || hasArith a
  | call2 f a b => (f = var "exp") || hasArith f || hasArith a || hasArith b
  | call3 f a b c => (f = var "exp") || hasArith f || hasArith a || hasArith b || hasArith c
  | call4 f a b c d =>
      (f = var "exp") || hasArith f || hasArith a || hasArith b || hasArith c || hasArith d
  | subscript e i => hasArith e || hasArith i
  | pair a b => hasArith a || hasArith b
  | listLit1 a => hasArith a
  | lam _ b => hasArith b
  | awaitE e => hasArith e

/-- Does a statement contain written-out arithmetic?  (The non-straight-line
constructors never occur in the notebooks, which is proved separately, so this
need not recurse into their bodies.) -/
def stmtHasArith (s : PyStmt) : Bool :=
  match stmtExpr s with
  | some e => hasArith e
  | none => false

/-- Constructors of the external chemistry library used by the notebooks. -/
def libConstructors : List String :=
  ["Database", "ChemicalEditor", "ChemicalSystem", "EquilibriumProblem",
   "EquilibriumInverseProblem", "ReactionEquation", "Reaction", "Phreeqc",
   "EquilibriumPath", "KineticPath", "ReactionSystem", "Partition"]

/-- Head expression of a call. -/
def callHead : PyExpr → Option PyExpr
  | call0 f => some f
  | call1 f _ => some f
  | call2 f _ _ => some f
  | call3 f _ _ _ => some f
  | call4 f _ _ _ _ => some f
  | _ => none

/-- Call heads that are not calls into the chemistry library: builtin
`print`, `math.exp`, and the matplotlib/numpy aliases. -/
def nonLibHeads : List String := ["print", "exp", "plt", "np", "numpy"]

/-- Is this expression, used as a call head, a call into the chemistry
library?  Library constructors, `equilibrate`, and any method of a library
object (directly named or the result of a chained library call). -/
def isLibHeadBase : PyExpr → Bool
  | var x => libConstructors.contains x || x = "equilibrate"
  | attr (var o) _ => !(nonLibHeads.contains o)
  | attr _ _ => true
  | _ => false

/-- Does an expression contain a call into the chemistry library? -/
def exprHasLibCall : PyExpr → Bool
  | num _ _ => false
  | str _ => false
  | var _ => false
  | binop _ a b => exprHasLibCall a || exprHasLibCall b
  | attr e _ => exprHasLibCall e
  | call0 f => isLibHeadBase f || exprHasLibCall f
  | call1 f a => isLibHeadBase f || exprHasLibCall f || exprHasLibCall a
  | call2 f a b => isLibHeadBase f || exprHasLibCall f || exprHasLibCall a || exprHasLibCall b
  | call3 f a b c =>
      isLibHeadBase f || exprHasLibCall f || exprHasLibCall a || exprHasLibCall b ||
        exprHasLibCall c
  | call4 f a b c d =>
      isLibHeadBase f || exprHasLibCall f || exprHasLibCall a || exprHasLibCall b ||
        exprHasLibCall c || exprHasLibCall d
  | subscript e i => exprHasLibCall e || exprHasLibCall i
  | pair a b => exprHasLibCall a || exprHasLibCall b
  | listLit1 a => exprHasLibCall a
  | lam _ b => exprHasLibCall b
  | awaitE e => exprHasLibCall e

/-- Does a statement make a call into the chemistry library? -/
def isLibCallStmt (s : PyStmt) : Bool :=
  match stmtExpr s with
  | some e => exprHasLibCall e
  | none => false

/-- Call heads that run a solver: `equilibrate`, the `solve` methods of
`EquilibriumPath`/`KineticPath`, and `Phreeqc.execute`. -/
def solveHead : PyExpr → Bool
  | var x => x = "equilibrate"
  | attr _ m => m = "solve" || m = "execute"
  | _ => false

/-- Does an expression contain a solver call? -/
def exprHasSolve : PyExpr → Bool
  | num _ _ => false
  | str _ => false
  | var _ => false
  | binop _ a b => exprHasSolve a || exprHasSolve b
  | attr e _ => exprHasSolve e
  | call0 f => solveHead f || exprHasSolve f
  | call1 f a => solveHead f || exprHasSolve f || exprHasSolve a
  | call2 f a b => solveHead f || exprHasSolve f || exprHasSolve a || exprHasSolve b
  | call3 f a b c =>
      solveHead f || exprHasSolve f || exprHasSolve a || exprHasSolve b || exprHasSolve c
  | call4 f a b c d =>
      solveHead f || exprHasSolve f || exprHasSolve a || exprHasSolve b || exprHasSolve c ||
        exprHasSolve d
  | subscript e i => exprHasSolve e || exprHasSolve i
  | pair a b => exprHasSolve a || exprHasSolve b
  | listLit1 a => exprHasSolve a
  | lam _ b => exprHasSolve b
  | awaitE e => exprHasSolve e

/-- Does a statement run a solver? -/
def stmtHasSolve (s : PyStmt) : Bool :=
  match stmtExpr s with
  | some e => exprHasSolve e
  | none => false

/-- Methods that build or configure the chemical-system description, the
problem, the path, or the output object, before solving. -/
def configMethods : List String :=
  ["addAqueousPhaseWithElements", "addAqueousPhaseWithElementsOf", "addMineralPhase",
   "addMineralReaction", "setEquation", "addMechanism", "setSpecificSurfaceArea",
   "setTemperature", "setPressure", "add", "pH", "setPartition", "setKineticSpecies",
   "filename", "output", "setSpeciesMass"]

/-- Expressions built purely from literals. -/
def literalOnly : PyExpr → Bool
  | num _ _ => true
  | str _ => true
  | pair a b => literalOnly a && literalOnly b
  | _ => false

/-- Is the expression a call of a library constructor? -/
def isConstructorCall (e : PyExpr) : Bool :=
  match callHead e with
  | some (var x) => libConstructors.contains x
  | _ => false

/-- Is the expression a call of a build/configuration method? -/
def isConfigCall (e : PyExpr) : Bool :=
  match callHead e with
  | some (attr _ m) => configMethods.contains m
  | _ => false

/-- Statements of the build phase: constructing library objects, configuring
them, or binding literal setup data (time bounds, the PHREEQC script). -/
def isSetupStmt : PyStmt → Bool
  | assign _ e => isConstructorCall e || isConfigCall e || literalOnly e
  | destructure _ e => literalOnly e
  | exprStmt e => isConfigCall e
  | _ => false

/-- Phases of the claimed notebook shape. -/
inductive Phase where
  | imports
  | build
  | solve
  | output
  deriving DecidableEq, Repr

/-- Phase of a single statement.  Everything that neither imports, solves,
nor builds/configures is result inspection: prints, plots, file loading and
post-processing of solver results. -/
def phaseOf (s : PyStmt) : Phase :=
  match s with
  | importAll _ => Phase.imports
  | importMod _ => Phase.imports
  | _ =>
    if stmtHasSolve s then Phase.solve
    else if isSetupStmt s then Phase.build
    else Phase.output

/-- Rank of a phase in the order claimed by the spec. -/
def phaseRank : Phase → ℕ
  | Phase.imports => 0
  | Phase.build => 1
  | Phase.solve => 2
  | Phase.output => 3

/-- Phase ranks of a notebook, statement by statement. -/
def phaseRanks (nb : List PyStmt) : List ℕ := nb.map fun s => phaseRank (phaseOf s)

/-- Is a list of naturals nondecreasing? -/
def monotoneRanks : List ℕ → Bool
  | [] => true
  | [_] => true
  | a :: b :: rest => decide (a ≤ b) && monotoneRanks (b :: rest)

/-- The spec's claimed shape: the statement phases are nondecreasing in the
order import, build, solve, print/plot. -/
@[reducible] def PhasesOrdered (nb : List PyStmt) : Prop :=
  monotoneRanks (phaseRanks nb) = true

/-- Plain variable name of an expression, when it is one. -/
def varName : PyExpr → Option String
  | var x => some x
  | _ => none

/-- The object variable a method is called on, when directly named. -/
def headObjVar : PyExpr → List String
  | attr (var o) _ => [o]
  | _ => []

/-- Variables that a solver call inside the expression takes as its receiver
or as direct arguments. -/
def solveCallVars : PyExpr → List String
  | num _ _ => []
  | str _ => []
  | var _ => []
  | binop _ a b => solveCallVars a ++ solveCallVars b
  | attr e _ => solveCallVars e
  | call0 f => (if solveHead f then headObjVar f else []) ++ solveCallVars f
  | call1 f a =>
      (if solveHead f then headObjVar f ++ (varName a).toList else []) ++
        solveCallVars f ++ solveCallVars a
  | call2 f a b =>
      (if solveHead f then headObjVar f ++ (varName a).toList ++ (varName b).toList else []) ++
        solveCallVars f ++ solveCallVars a ++ solveCallVars b
  | call3 f a b c =>
      (if solveHead f then
        headObjVar f ++ (varName a).toList ++ (varName b).toList ++ (varName c).toList
       else []) ++ solveCallVars f ++ solveCallVars a ++ solveCallVars b ++ solveCallVars c
  | call4 f a b c d =>
      (if solveHead f then
        headObjVar f ++ (varName a).toList ++ (varName b).toList ++ (varName c).toList ++
          (varName d).toList
       else []) ++ solveCallVars f ++ solveCallVars a ++ solveCallVars b ++ solveCallVars c ++
        solveCallVars d
  | subscript e i => solveCallVars e ++ solveCallVars i
  | pair a b => solveCallVars a ++ solveCallVars b
  | listLit1 a => solveCallVars a
  | lam _ b => solveCallVars b
  | awaitE e => solveCallVars e

/-- Variables a statement's solver calls depend on. -/
def stmtSolveVars (s : PyStmt) : List String :=
  match stmtExpr s with
  | some e => solveCallVars e
  | none => []

/-- Walking the notebook with the set of already-assigned variables: every
solver call only mentions a receiver and arguments assigned strictly
earlier. -/
def solveArgsDefined (env : List String) : List PyStmt → Bool
  | [] => true
  | s :: rest =>
      (stmtSolveVars s).all env.contains && solveArgsDefined (stmtAssignedVars s ++ env) rest

/-- Is the statement a matplotlib plot command? -/
def isPlotStmt : PyStmt → Bool
  | exprStmt e =>
      match callHead e with
      | some (attr (var "plt") "plot") => true
      | _ => false
  | _ => false

/-- Every plot statement of the notebook comes after every solver call. -/
def plotsAfterSolves (nb : List PyStmt) : Bool :=
  nb.enum.all fun p =>
    !(isPlotStmt p.2) || (nb.enum.all fun q => !(stmtHasSolve q.2) || decide (q.1 < p.1))

/-- Does the notebook start with `from reaktoro import *`? -/
def firstImportsReaktoro : List PyStmt → Bool
  | importAll "reaktoro" :: _ => true
  | _ => false

/-- Extraction of an ion line of the Evian notebook: `problem.add(ion,
c * 1e-6 / system.species(sp).molarMass(), "mol")` gives `(ion, c, sp)`. -/
def ionAddSpec : PyStmt → Option (String × ℤ × ℕ × String)
  | exprStmt (call3 (attr (var "problem") "add") (str ion)
      (binop "/" (binop "*" (num m e) (num q qe))
        (call0 (attr (call1 (attr (var "system") "species") (str sp)) "molarMass")))
      (str "mol")) =>
      if q = 1 ∧ qe = 6 then some (ion, m, e, sp) else none
  | _ => none

/-- The ion lines of a notebook, in order. -/
def ionAdds (nb : List PyStmt) : List (String × ℤ × ℕ × String) := nb.filterMap ionAddSpec

/-- The divisor rule the ion lines are claimed to follow: the molar mass of
the ion itself, except for SO4-- where the species queried is S2O4--. -/
def ionDivisorRule (l : List (String × ℤ × ℕ × String)) : Bool :=
  l.all fun p => if p.1 = "SO4--" then p.2.2.2 = "S2O4--" else p.2.2.2 = p.1

/-- Statement shapes that write a file from repository code: builtin `open`,
write/dump methods, or `numpy.savetxt`. -/
def fileWriteNames : List String :=
  ["open", "write", "writelines", "savetxt", "to_csv", "dump"]

/-- Used as a call head, does the expression name a file-writing routine? -/
def isFileWriteHead : PyExpr → Bool
  | var x => fileWriteNames.contains x
  | attr _ m => fileWriteNames.contains m
  | _ => false

/-- Does an expression contain a repository-level file write? -/
def exprHasFileWrite : PyExpr → Bool
  | num _ _ => false
  | str _ => false
  | var _ => false
  | binop _ a b => exprHasFileWrite a || exprHasFileWrite b
  | attr e _ => exprHasFileWrite e
  | call0 f => isFileWriteHead f || exprHasFileWrite f
  | call1 f a => isFileWriteHead f || exprHasFileWrite f || exprHasFileWrite a
  | call2 f a b => isFileWriteHead f || exprHasFileWrite f || exprHasFileWrite a ||
      exprHasFileWrite b
  | call3 f a b c => isFileWriteHead f || exprHasFileWrite f || exprHasFileWrite a ||
      exprHasFileWrite b || exprHasFileWrite c
  | call4 f a b c d => isFileWriteHead f || exprHasFileWrite f || exprHasFileWrite a ||
      exprHasFileWrite b || exprHasFileWrite c || exprHasFileWrite d
  | subscript e i => exprHasFileWrite e || exprHasFileWrite i
  | pair a b => exprHasFileWrite a || exprHasFileWrite b
  | listLit1 a => exprHasFileWrite a
  | lam _ b => exprHasFileWrite b
  | awaitE e => exprHasFileWrite e

/-- Does a statement write a file from repository code? -/
def stmtHasFileWrite (s : PyStmt) : Bool :=
  match stmtExpr s with
  | some e => exprHasFileWrite e
  | none => false

/-- Filename read by a `loadtxt` call bound in the statement, if any. -/
def loadtxtFile : PyStmt → Option String
  | assign _ (call2 (attr (var _) "loadtxt") (str f) _) => some f
  | _ => none

/-- Filename configured on the library output object by the statement. -/
def filenameConfig : PyStmt → Option String
  | exprStmt (call1 (attr (var "output") "filename") (str f)) => some f
  | _ => none

/-- Walking the notebook: every `loadtxt` read names a file configured on a
library output object by an earlier statement. -/
def loadtxtReadsConfigured (cfgs : List String) : List PyStmt → Bool
  | [] => true
  | s :: rest =>
      (match loadtxtFile s with
       | some f => cfgs.contains f
       | none => true) &&
      loadtxtReadsConfigured (cfgs ++ (filenameConfig s).toList) rest

/-- Files the notebook reads with `loadtxt`, in order. -/
def loadtxtFiles (nb : List PyStmt) : List String := nb.filterMap loadtxtFile

/-- Files the notebook configures as library output, in order. -/
def configuredOutputFiles (nb : List PyStmt) : List String := nb.filterMap filenameConfig

/-- Does the expression mention the variable? -/
def exprMentions (x : String) : PyExpr → Bool
  | num _ _ => false
  | str _ => false
  | var y => y = x
  | binop _ a b => exprMentions x a || exprMentions x b
  | attr e _ => exprMentions x e
  | call0 f => exprMentions x f
  | call1 f a => exprMentions x f || exprMentions x a
  | call2 f a b => exprMentions x f || exprMentions x a || exprMentions x b
  | call3 f a b c => exprMentions x f || exprMentions x a || exprMentions x b || exprMentions x c
  | call4 f a b c d => exprMentions x f || exprMentions x a || exprMentions x b ||
      exprMentions x c || exprMentions x d
  | subscript e i => exprMentions x e || exprMentions x i
  | pair a b => exprMentions x a || exprMentions x b
  | listLit1 a => exprMentions x a
  | lam _ b => exprMentions x b
  | awaitE e => exprMentions x e

/-- Does the statement mention the variable, as a target or in its
expression? -/
def stmtMentions (x : String) (s : PyStmt) : Bool :=
  (stmtAssignedVars s).contains x ||
    (match stmtExpr s with
     | some e => exprMentions x e
     | none => false)

/-- Positions of the statements of a notebook that mention a variable. -/
def mentionIndices (x : String) (nb : List PyStmt) : List ℕ :=
  (nb.enum.filter fun p => stmtMentions x p.2).map Prod.fst

/-- String literal assigned by the statement, if it is such an assignment. -/
def literalAssign : PyStmt → Option (String × String)
  | assign x (str s) => some (x, s)
  | _ => none

/-- Argument of a `phreeqc.execute` call made by the statement. -/
def executeArgOf : PyStmt → Option PyExpr
  | exprStmt (call1 (attr (var _) "execute") a) => some a
  | _ => none

/-- The string handed to `phreeqc.execute`, resolving one variable hop
through the notebook's string-literal bindings. -/
def executedScript (nb : List PyStmt) : Option String :=
  nb.findSome? fun s =>
    match executeArgOf s with
    | some (str t) => some t
    | some (var x) => (nb.filterMap literalAssign).lookup x
    | _ => none

/-- Quantity string registered by an `output.add` call in the statement. -/
def outputAddArg : PyStmt → Option String
  | exprStmt (call1 (attr (var "output") "add") (str q)) => some q
  | exprStmt (call2 (attr (var "output") "add") (str q) _) => some q
  | _ => none

/-- Quantities registered on the library output object, in order. -/
def outputAdds (nb : List PyStmt) : List String := nb.filterMap outputAddArg

/-- Index variables destructured from a `numpy.arange` call. -/
def arangeVars : PyStmt → Option (List String)
  | destructure xs (call1 (attr (var _) "arange") _) => some xs
  | destructure xs (call2 (attr (var _) "arange") _ _) => some xs
  | _ => none

/-- The notebook's column-index variables, in the order `arange` numbers
them. -/
def indexVars (nb : List PyStmt) : List String := (nb.findSome? arangeVars).getD []

/-- Column number an index variable stands for (the list length if the
variable is not an index variable). -/
def columnOf (nb : List PyStmt) (v : String) : ℕ := (indexVars nb).indexOf v

/-- Quantity stored in the column an index variable stands for. -/
def quantityAt (nb : List PyStmt) (v : String) : String :=
  (outputAdds nb).getD (columnOf nb v) ""

/-- Index variables used to subscript the loaded `data` matrix in an
expression. -/
def dataSubscriptVars : PyExpr → List String
  | num _ _ => []
  | str _ => []
  | var _ => []
  | binop _ a b => dataSubscriptVars a ++ dataSubscriptVars b
  | attr e _ => dataSubscriptVars e
  | call0 f => dataSubscriptVars f
  | call1 f a => dataSubscriptVars f ++ dataSubscriptVars a
  | call2 f a b => dataSubscriptVars f ++ dataSubscriptVars a ++ dataSubscriptVars b
  | call3 f a b c => dataSubscriptVars f ++ dataSubscriptVars a ++ dataSubscriptVars b ++
      dataSubscriptVars c
  | call4 f a b c d => dataSubscriptVars f ++ dataSubscriptVars a ++ dataSubscriptVars b ++
      dataSubscriptVars c ++ dataSubscriptVars d
  | subscript (var "data") (var v) => [v]
  | subscript e i => dataSubscriptVars e ++ dataSubscriptVars i
  | pair a b => dataSubscriptVars a ++ dataSubscriptVars b
  | listLit1 a => dataSubscriptVars a
  | lam _ b => dataSubscriptVars b
  | awaitE e => dataSubscriptVars e

/-- All index variables with which the notebook subscripts its `data`
matrix. -/
def usedDataColumns (nb : List PyStmt) : List String :=
  nb.foldr (fun s acc =>
    (match stmtExpr s with
     | some e => dataSubscriptVars e
     | none => []) ++ acc) []

/-- Sequential execution of a straight-line notebook against an oracle that
says which library calls fail (by statement position) and with what error.
There is no handler anywhere, so the first library failure ends the run. -/
def runNotebook (fail : ℕ → Option String) : List PyStmt → ℕ → Except String Unit
  | [], _ => Except.ok ()
  | s :: rest, i =>
      match (if isLibCallStmt s then fail i else none) with
      | some e => Except.error e
      | none => runNotebook fail rest (i + 1)

/-- Chemical state of the kinetics notebook, as stored amounts by species
name. -/
def ChemState : Type := String → ℚ

/-- Rational value of a scientific literal with mantissa `m` and decimal
exponent `e`. -/
def sciVal (m : ℤ) (e : ℕ) : ℚ := (m : ℚ) / 10 ^ e

/-- Modelled from the spec: the implementation of the library method
`ChemicalState.setSpeciesMass` is external to this repository (the spec
delegates all state manipulation to the library's public API), so the call
is modelled by its API contract: it stores the given value for the single
named species and leaves every other species untouched.  Every other
statement shape leaves the chemical state unchanged (in the modelled window
the remaining statements only configure the kinetic path and its output or
bind unrelated variables). -/
def speciesEffect (st : ChemState) : PyStmt → ChemState
  | exprStmt (call3 (attr (var _) "setSpeciesMass") (str name) (num m e) (str _)) =>
      fun x => if x = name then sciVal m e else st x
  | _ => st

/-- Running a straight-line segment over the chemical state. -/
def runSegment (seg : List PyStmt) (st : ChemState) : ChemState :=
  seg.foldl speciesEffect st

/-- Statements of the kinetics notebook strictly between the `equilibrate`
binding of `state0` and the `path.solve` call that consumes it. -/
def kinPreSolveSegment : List PyStmt := (calciteHcl.drop 16).take 12

/-- Kinds a notebook binding can have. -/
inductive ValKind where
  | obj
  | numK
  | strK
  | arrK
  | tupK
  deriving DecidableEq, Repr

/-- Result kind of a call, by its head: library constructors and
object-returning methods give opaque library objects, scalar queries give
numbers, array producers give arrays. -/
def headKind : PyExpr → Option ValKind
  | var x =>
      if libConstructors.contains x || x = "equilibrate" then some ValKind.obj
      else if x = "exp" then some ValKind.numK
      else none
  | attr _ m =>
      if m = "molarMass" || m = "indexPhase" then some ValKind.numK
      else if m = "loadtxt" || m = "arange" || m = "phaseStabilityIndices" then some ValKind.arrK
      else if ["output", "properties", "lnEquilibriumConstant", "lnReactionQuotient",
        "solve", "state", "species"].contains m then some ValKind.obj
      else none
  | _ => none

/-- Kind of an expression under an environment of bound-variable kinds. -/
def inferKind (env : List (String × ValKind)) : PyExpr → Option ValKind
  | num _ _ => some ValKind.numK
  | str _ => some ValKind.strK
  | var x => env.lookup x
  | binop _ a b =>
      match inferKind env a, inferKind env b with
      | some ValKind.numK, some ValKind.numK => some ValKind.numK
      | _, _ => none
  | attr e f =>
      if f = "val" then
        match inferKind env e with
        | some ValKind.obj => some ValKind.numK
        | _ => none
      else if f = "T" then
        match inferKind env e with
        | some ValKind.arrK => some ValKind.arrK
        | _ => none
      else none
  | call0 f => headKind f
  | call1 f _ => headKind f
  | call2 f _ _ => headKind f
  | call3 f _ _ _ => headKind f
  | call4 f _ _ _ _ => headKind f
  | subscript e _ =>
      match inferKind env e with
      | some ValKind.arrK => some ValKind.arrK
      | _ => none
  | pair a b =>
      match inferKind env a, inferKind env b with
      | some ValKind.numK, some ValKind.numK => some ValKind.tupK
      | _, _ => none
  | listLit1 _ => none
  | lam _ _ => none
  | awaitE _ => none

/-- Kinds the claim allows a bound notebook value to have: a library-owned
opaque object, a number, a string, or an array from a library/numpy call. -/
def allowedKind : ValKind → Bool
  | ValKind.obj => true
  | ValKind.numK => true
  | ValKind.strK => true
  | ValKind.arrK => true
  | ValKind.tupK => false

/-- Walking the notebook: every binding has an inferable kind among the
allowed ones; destructuring an array or a pair of numbers binds numbers. -/
def checkBindings (env : List (String × ValKind)) : List PyStmt → Bool
  | [] => true
  | assign x e :: rest =>
      (match inferKind env e with
       | some k => allowedKind k && checkBindings ((x, k) :: env) rest
       | none => false)
  | destructure xs e :: rest =>
      (match inferKind env e with
       | some ValKind.arrK =>
          checkBindings (xs.map (fun x => (x, ValKind.numK)) ++ env) rest
       | some ValKind.tupK =>
          checkBindings (xs.map (fun x => (x, ValKind.numK)) ++ env) rest
       | _ => false)
  | _ :: rest => checkBindings env rest

/-- Does the expression contain a Python lambda? -/
def hasLam : PyExpr → Bool
  | num _ _ => false
  | str _ => false
  | var _ => false
  | binop _ a b => hasLam a || hasLam b
  | attr e _ => hasLam e
  | call0 f => hasLam f
  | call1 f a => hasLam f || hasLam a
  | call2 f a b => hasLam f || hasLam a || hasLam b
  | call3 f a b c => hasLam f || hasLam a || hasLam b || hasLam c
  | call4 f a b c d => hasLam f || hasLam a || hasLam b || hasLam c || hasLam d
  | subscript e i => hasLam e || hasLam i
  | pair a b => hasLam a || hasLam b
  | listLit1 a => hasLam a
  | lam _ _ => true
  | awaitE e => hasLam e

/-- Does the expression contain an await? -/
def hasAwait : PyExpr → Bool
  | num _ _ => false
  | str _ => false
  | var _ => false
  | binop _ a b => hasAwait a || hasAwait b
  | attr e _ => hasAwait e
  | call0 f => hasAwait f
  | call1 f a => hasAwait f || hasAwait a
  | call2 f a b => hasAwait f || hasAwait a || hasAwait b
  | call3 f a b c => hasAwait f || hasAwait a || hasAwait b || hasAwait c
  | call4 f a b c d => hasAwait f || hasAwait a || hasAwait b || hasAwait c || hasAwait d
  | subscript e i => hasAwait e || hasAwait i
  | pair a b => hasAwait a || hasAwait b
  | listLit1 a => hasAwait a
  | lam _ b => hasAwait b
  | awaitE _ => true

/-- Does a statement use a lambda or an await? -/
def stmtHasLamOrAwait (s : PyStmt) : Bool :=
  match stmtExpr s with
  | some e => hasLam e || hasAwait e
  | none => false

/-- Execution events of the sequential cell-by-cell run. -/
inductive Event where
  | begins (i : ℕ)
  | ends (i : ℕ)
  deriving DecidableEq, Repr

/-- Event trace of running a straight-line notebook from position `i`: each
statement begins, runs to completion, and ends before the next begins. -/
def execTrace : List PyStmt → ℕ → List Event
  | [], _ => []
  | _ :: rest, i => Event.begins i :: Event.ends i :: execTrace rest (i + 1)

/-- The fully sequential trace on `n` statements starting at `i`. -/
def canonicalTrace : ℕ → ℕ → List Event
  | 0, _ => []
  | n + 1, i => Event.begins i :: Event.ends i :: canonicalTrace n (i + 1)

/-- Is the statement a bare call of an `add` method (on the problem being
built or on the output configuration object)? -/
def isAddCallStmt (s : PyStmt) : Bool :=
  match stmtExpr s with
  | some e =>
      match callHead e with
      | some (attr _ m) => m = "add"
      | _ => false
  | none => false

/-- Variables of the Evian notebook holding the saturation-ratio and
saturation-index post-processing results. -/
def saturationIndexTargets : List String :=
  ["SR_calcite", "SI_calcite", "SR_dolomite", "SI_dolomite", "SR_quartz", "SI_quartz"]

/-- Arithmetic is confined to the unit conversions inside `add` arguments
and to the saturation-index post-processing bindings. -/
def arithConfined (s : PyStmt) : Bool :=
  !(stmtHasArith s) || isAddCallStmt s ||
    (match assignTarget s with
     | some x => saturationIndexTargets.contains x
     | none => false)

/-- A failure oracle making the library call of statement 12 (the first
`equilibrate` of the salt notebook) fail. -/
def failAt12 : ℕ → Option String :=
  fun j => if j = 12 then some "equilibrium calculation failed" else none

/-! Helper lemmas shared by the claim theorems. -/

/-- Any error produced by running a notebook against a failure oracle is the
verbatim error of the oracle at a library-call statement: no recovery and no
translation happen on the way out. -/
theorem runNotebook_error_src (fail : ℕ → Option String) :
    ∀ (nb : List PyStmt) (i : ℕ) (e : String),
      runNotebook fail nb i = Except.error e →
      ∃ j, i ≤ j ∧ fail j = some e ∧ isLibCallStmt (stmtAt nb (j - i)) = true := by
  intro nb
  induction nb with
  | nil =>
      intro i e h
      simp [runNotebook] at h
  | cons s rest ih =>
      intro i e h
      by_cases hc : isLibCallStmt s
      · cases hf : fail i with
        | some e' =>
            have hrun : runNotebook fail (s :: rest) i = Except.error e' := by
              simp [runNotebook, hc, hf]
            rw [hrun] at h
            have he : e' = e := by
              injection h
            refine ⟨i, le_refl i, ?_, ?_⟩
            · rw [hf, he]
            · simpa [stmtAt] using hc
        | none =>
            have hrun : runNotebook fail (s :: rest) i = runNotebook fail rest (i + 1) := by
              simp [runNotebook, hc, hf]
            rw [hrun] at h
            obtain ⟨j, hij, hfj, hlib⟩ := ih (i + 1) e h
            refine ⟨j, by omega, hfj, ?_⟩
            have hji : j - i = (j - (i + 1)) + 1 := by omega
            rw [hji]
            simpa [stmtAt] using hlib
      · have hrun : runNotebook fail (s :: rest) i = runNotebook fail rest (i + 1) := by
          simp [runNotebook, hc]
        rw [hrun] at h
        obtain ⟨j, hij, hfj, hlib⟩ := ih (i + 1) e h
        refine ⟨j, by omega, hfj, ?_⟩
        have hji : j - i = (j - (i + 1)) + 1 := by omega
        rw [hji]
        simpa [stmtAt] using hlib

/-- The statements between `equilibrate` and `path.solve` in the kinetics
notebook act on the chemical state as the single update of Calcite to the
stored value 100. -/
theorem runSegment_kin_eq (st : ChemState) :
    runSegment kinPreSolveSegment st =
      fun x => if x = "Calcite" then sciVal 100 0 else st x := rfl

/-- Running a straight-line notebook yields the fully sequential trace. -/
theorem execTrace_eq_canonical :
    ∀ (nb : List PyStmt) (i : ℕ), execTrace nb i = canonicalTrace nb.length i := by
  intro nb
  induction nb with
  | nil => intro i; rfl
  | cons s rest ih =>
      intro i
      simp only [execTrace, List.length_cons, canonicalTrace, ih]

/-! Claim theorems. -/

/-- C1, counterexample: it is false that no computational step of the
notebooks is arithmetic written in notebook code.  The Evian notebook binds
the saturation ratio `SR_calcite` by the subtraction `lnQ.val - lnK.val` of
two library values and the saturation index `SI_calcite` by `exp` of it, so
a printed equilibrium result is produced partly by notebook arithmetic. -/
theorem saturation_index_is_notebook_arithmetic :
    (evianWaterAnalysis.all fun s => !(stmtHasArith s)) = false ∧
    stmtHasArith (stmtAt evianWaterAnalysis 37) = true ∧
    assignTarget (stmtAt evianWaterAnalysis 37) = some "SR_calcite" ∧
    stmtHasArith (stmtAt evianWaterAnalysis 38) = true ∧
    assignTarget (stmtAt evianWaterAnalysis 38) = some "SI_calcite" := by
  decide

/-- C1, amended: every solver step (equilibrate, path solve, PHREEQC
execute) is a plain library call with no notebook arithmetic in its
statement, and all notebook arithmetic is confined to the unit conversions
inside `add` arguments and to the saturation-ratio/index bindings of the
Evian notebook. -/
theorem solver_steps_are_pure_library_calls :
    (notebooks.all fun nb => nb.all fun s => !(stmtHasSolve s) || !(stmtHasArith s)) = true ∧
    (notebooks.all fun nb => nb.all arithConfined) = true := by
  decide

/-- C2: the ion lines of the Evian notebook pass to `problem.add` the
labelled concentration times `1e-6` (the mass in kg) divided by the molar
mass of a queried species; the queried species equals the ion itself for
Ca++, Cl-, HCO3-, Mg++, NO3-, K+ and Na+, while for SO4-- the divisor is
the molar mass of the species named S2O4--. -/
theorem evian_ion_adds_divide_by_molar_mass :
    ionAdds evianWaterAnalysis =
      [("Ca++", 80, 0, "Ca++"), ("Cl-", 68, 1, "Cl-"), ("HCO3-", 350, 0, "HCO3-"),
       ("Mg++", 26, 0, "Mg++"), ("NO3-", 37, 1, "NO3-"), ("K+", 1, 0, "K+"),
       ("Na+", 65, 1, "Na+"), ("SO4--", 126, 1, "S2O4--")] ∧
    ionDivisorRule (ionAdds evianWaterAnalysis) = true := by
  decide

/-- C3, counterexample: the statement phases of the salt notebook are not
ordered import, build, solve, print/plot: statement 12 is the first
`equilibrate` (solve) and statement 14 adds another kilogram of NaCl to the
problem (build) after it. -/
theorem salt_notebook_builds_after_solving :
    phaseOf (stmtAt sodiumChloride 12) = Phase.solve ∧
    phaseOf (stmtAt sodiumChloride 14) = Phase.build ∧
    ¬ PhasesOrdered sodiumChloride := by
  decide

/-- C3, amended: every notebook is a straight-line sequence of statements
that starts with the library import; phases may repeat, but every solver
call names only a receiver and arguments assigned strictly earlier (so no
solve precedes the construction of the system it uses), and every plot of
results follows every solve. -/
theorem notebooks_straightline_solve_after_build :
    (notebooks.all fun nb => nb.all straightLine) = true ∧
    (notebooks.all firstImportsReaktoro) = true ∧
    (notebooks.all (solveArgsDefined [])) = true ∧
    (notebooks.all plotsAfterSolves) = true := by
  decide

/-- C4: no notebook statement is guarded by exception handling, and any
error a library call raises leaves the notebook verbatim: whenever a run
against a failure oracle ends in an error, that error is the oracle's own
message at a library-call statement. -/
theorem notebooks_propagate_library_failures :
    (notebooks.all fun nb => nb.all fun s => !(isTryExcept s)) = true ∧
    ∀ nb ∈ notebooks, ∀ (fail : ℕ → Option String) (e : String),
      runNotebook fail nb 0 = Except.error e →
      ∃ j, fail j = some e ∧ isLibCallStmt (stmtAt nb j) = true := by
  refine ⟨by decide, ?_⟩
  intro nb _ fail e h
  obtain ⟨j, _, hfj, hlib⟩ := runNotebook_error_src fail nb 0 e h
  exact ⟨j, hfj, by simpa using hlib⟩

/-- C4, witness: with an oracle failing the first `equilibrate` of the salt
notebook, the run ends in exactly that error, and the theorem locates it at
a library-call statement. -/
theorem notebooks_propagate_library_failures_witness :
    ∃ j, failAt12 j = some "equilibrium calculation failed" ∧
      isLibCallStmt (stmtAt sodiumChloride j) = true :=
  notebooks_propagate_library_failures.2 sodiumChloride (by simp [notebooks])
    failAt12 "equilibrium calculation failed" (by rfl)

set_option maxRecDepth 4000 in
/-- C5: no notebook statement writes a file from repository code; the only
file operations are `loadtxt` reads, and each read names exactly a file
earlier configured on the library's output object via `output.filename`. -/
theorem notebooks_only_read_library_written_files :
    (notebooks.all fun nb => nb.all fun s => !(stmtHasFileWrite s)) = true ∧
    (notebooks.all (loadtxtReadsConfigured [])) = true ∧
    loadtxtFiles calciteHcl = ["results.txt"] ∧
    configuredOutputFiles calciteHcl = ["results.txt"] ∧
    loadtxtFiles equilibriumPath = ["result.txt"] ∧
    configuredOutputFiles equilibriumPath = ["result.txt"] ∧
    loadtxtFiles sodiumChloride = [] ∧
    loadtxtFiles evianWaterAnalysis = [] := by
  decide

set_option maxRecDepth 8000 in
/-- C6: the variable `ex1` occurs in exactly two statements of the Evian
notebook, its binding to the raw PHREEQC script literal and its use as the
bare argument of `phreeqc.execute`; the string handed to `execute` is the
literal itself, untransformed. -/
theorem evian_passes_ex1_verbatim_to_execute :
    mentionIndices "ex1" evianWaterAnalysis = [57, 59] ∧
    literalAssign (stmtAt evianWaterAnalysis 57) = some ("ex1", phreeqcScriptEx1) ∧
    executeArgOf (stmtAt evianWaterAnalysis 59) = some (var "ex1") ∧
    executedScript evianWaterAnalysis = some phreeqcScriptEx1 := by
  decide

/-- C7, counterexample: pH is not column 5 in both path notebooks: in the
equilibrium-path notebook `ph_indx` is column 4 (and that column is indeed
the registered quantity pH). -/
theorem ph_is_column_four_in_equilibrium_path :
    columnOf equilibriumPath "ph_indx" ≠ 5 ∧
    columnOf equilibriumPath "ph_indx" = 4 ∧
    quantityAt equilibriumPath "ph_indx" = "pH" := by
  decide

/-- C7, amended: in both path notebooks the `arange` index variables
enumerate exactly the quantities registered with `output.add`, in order;
column 0 is time in the kinetics notebook and the Cl amount in the
equilibrium-path notebook, and pH is column 5 in the kinetics notebook but
column 4 in the equilibrium-path notebook; every plotted `data` column is
one of these index variables. -/
theorem output_columns_enumerate_added_quantities :
    (indexVars calciteHcl).zip (outputAdds calciteHcl) =
      [("time_indx", "time(units=minute)"), ("ca_elem_indx", "elementMolality(Ca units=mmolal)"),
       ("calcite_indx", "phaseMass(Calcite units=g)"),
       ("ca_species_indx", "speciesMolality(Ca++ units=mmolal)"),
       ("hco3_indx", "speciesMolality(HCO3- units=mmolal)"), ("ph_indx", "pH")] ∧
    (indexVars equilibriumPath).zip (outputAdds equilibriumPath) =
      [("cl_indx", "elementAmount(Cl units=mmol)"),
       ("co2aq_indx", "speciesMolality(CO2(aq) units=mmolal)"),
       ("co3_indx", "speciesMolality(CO3-- units=mmolal)"),
       ("ca_indx", "elementMolality(Ca units=mmolal)"),
       ("ph_indx", "pH"), ("calcite_indx", "speciesMass(Calcite units=g)")] ∧
    (indexVars calciteHcl).length = (outputAdds calciteHcl).length ∧
    (indexVars equilibriumPath).length = (outputAdds equilibriumPath).length ∧
    columnOf calciteHcl "time_indx" = 0 ∧
    quantityAt calciteHcl "time_indx" = "time(units=minute)" ∧
    columnOf equilibriumPath "cl_indx" = 0 ∧
    quantityAt equilibriumPath "cl_indx" = "elementAmount(Cl units=mmol)" ∧
    columnOf calciteHcl "ph_indx" = 5 ∧
    quantityAt calciteHcl "ph_indx" = "pH" ∧
    columnOf equilibriumPath "ph_indx" = 4 ∧
    quantityAt equilibriumPath "ph_indx" = "pH" ∧
    ((usedDataColumns calciteHcl).all (indexVars calciteHcl).contains) = true ∧
    ((usedDataColumns equilibriumPath).all (indexVars equilibriumPath).contains) = true := by
  decide

/-- C8: between `equilibrate` and `path.solve` in the kinetics notebook,
only the Calcite species changes: running the intervening statements over
any chemical state leaves every species other than Calcite at its
equilibrated value, sets Calcite to the stored value 100, and `state0` is
mentioned by exactly one intervening statement (the `setSpeciesMass`
call). -/
theorem kin_setSpeciesMass_changes_only_calcite (st : ChemState) (x : String)
    (hx : x ≠ "Calcite") :
    runSegment kinPreSolveSegment st x = st x ∧
    runSegment kinPreSolveSegment st "Calcite" = 100 ∧
    (kinPreSolveSegment.filter (stmtMentions "state0")).length = 1 := by
  rw [runSegment_kin_eq]
  refine ⟨?_, ?_, by decide⟩
  · simp [hx]
  · norm_num [sciVal]

/-- C8, witness: on the constant state 3 the segment leaves H2O at 3 and
puts Calcite at 100. -/
theorem kin_setSpeciesMass_changes_only_calcite_witness :
    runSegment kinPreSolveSegment (fun _ => (3 : ℚ)) "H2O" = 3 ∧
    runSegment kinPreSolveSegment (fun _ => (3 : ℚ)) "Calcite" = 100 ∧
    (kinPreSolveSegment.filter (stmtMentions "state0")).length = 1 :=
  kin_setSpeciesMass_changes_only_calcite (fun _ => (3 : ℚ)) "H2O" (by decide)

/-- C9: no notebook statement defines a function or a class (nor uses a
lambda or await), and every bound value has an inferable kind that is a
library-owned opaque object, a number, a string, or an array from a
library/numpy call. -/
theorem notebooks_define_no_data_structures :
    (notebooks.all fun nb => nb.all fun s =>
      !(definesFuncOrClass s) && !(stmtHasLamOrAwait s)) = true ∧
    (notebooks.all (checkBindings [])) = true := by
  decide

/-- C10: every notebook statement is straight-line with no spawn and no
await, and the execution trace of each notebook is the fully sequential
one: each statement ends before the next begins. -/
theorem notebooks_execute_sequentially :
    (notebooks.all fun nb => nb.all fun s =>
      straightLine s && !(isSpawn s) && !(stmtHasLamOrAwait s)) = true ∧
    execTrace sodiumChloride 0 = canonicalTrace sodiumChloride.length 0 ∧
    execTrace evianWaterAnalysis 0 = canonicalTrace evianWaterAnalysis.length 0 ∧
    execTrace equilibriumPath 0 = canonicalTrace equilibriumPath.length 0 ∧
    execTrace calciteHcl 0 = canonicalTrace calciteHcl.length 0 :=
  ⟨by decide, execTrace_eq_canonical _ 0, execTrace_eq_canonical _ 0,
    execTrace_eq_canonical _ 0, execTrace_eq_canonical _ 0⟩

end Reaktoro
